import Mathlib

/-!
Verification of `amethyst_input/src/util.rs`: stateless classification of
winit window events (keyboard key, mouse button, close request) and
resolution of optional named axes/actions against an `InputHandler` store.

The winit event vocabulary is external to the crate; it is embedded here as
a closed sum with the constructors the code pattern-matches on, plus an
explicit catch-all constructor standing for every other variant.  Fields
the code discards with `..` (window ids, device ids, scancodes, modifier
state, the synthetic flag) are kept as abstract `Nat`/`Bool` payloads so
that the discarding is visible.  `f32` axis values are modelled as `Rat`:
the code performs no arithmetic on them, only pass-through and the
constant `0.0`.
-/

namespace AmethystInputUtil

/-- winit `ElementState`: whether the input went down or up. -/
inductive ElementState
  | Pressed
  | Released
deriving DecidableEq, Repr

/-- winit `VirtualKeyCode`: a large platform key enumeration, external to
the crate; modelled abstractly as a wrapped code, equality-comparable. -/
structure VirtualKeyCode where
  code : Nat
deriving DecidableEq, Repr

/-- winit `MouseButton`. -/
inductive MouseButton
  | Left
  | Right
  | Middle
  | Other (id : Nat)
deriving DecidableEq, Repr

/-- winit `KeyboardInput` struct: `scancode`, `state`, `virtual_keycode`,
and the (deprecated) modifier state, modelled abstractly as a `Nat`. -/
structure KeyboardInput where
  scancode : Nat
  state : ElementState
  virtual_keycode : Option VirtualKeyCode
  modifiers : Nat
deriving DecidableEq, Repr

/-- winit `WindowEvent`: the three variants the code matches on, plus a
catch-all constructor for every other window-event variant (Resized,
Moved, Focused, CursorMoved, ...), tagged so distinct variants stay
distinct. -/
inductive WindowEvent
  | KeyboardInput (device_id : Nat) (input : KeyboardInput) (is_synthetic : Bool)
  | CloseRequested
  | MouseInput (device_id : Nat) (state : ElementState) (button : MouseButton) (modifiers : Nat)
  | OtherWindowEvent (tag : Nat)
deriving DecidableEq, Repr

/-- winit `Event<'_, ()>`: the code only inspects the `WindowEvent`
variant; every other variant (NewEvents, DeviceEvent, UserEvent,
Suspended, Resumed, MainEventsCleared, RedrawRequested, ...) is the
tagged catch-all. -/
inductive Event
  | WindowEvent (window_id : Nat) (event : WindowEvent)
  | OtherEvent (tag : Nat)
deriving DecidableEq, Repr

/-- Modelled from the spec: the external input-state store
(`InputHandler`, whose source is outside this module) exposes exactly two
read-only queries, `axis_value(name) -> Option<float>` and
`action_is_down(name) -> Option<bool>`, keyed by input name.  `f32` is
modelled as `Rat` (only pass-through and the constant `0.0` occur). -/
structure InputHandler where
  axis_value : String → Option Rat
  action_is_down : String → Option Bool

/-- `get_key`: if this event was for manipulating a keyboard key, returns
the `VirtualKeyCode` and the new state. -/
def get_key : Event → Option (VirtualKeyCode × ElementState)
  | .WindowEvent _ (.KeyboardInput _ ⟨_, s, some virtual_keycode, _⟩ _) =>
      some (virtual_keycode, s)
  | _ => none

/-- `is_key_down`: true if the event is a key down event for the provided
`VirtualKeyCode`. -/
def is_key_down (event : Event) (key_code : VirtualKeyCode) : Bool :=
  match get_key event with
  | some (key, s) => decide (key = key_code) && decide (s = ElementState.Pressed)
  | none => false

/-- `is_key_up`: true if the event is a key up event for the provided
`VirtualKeyCode`. -/
def is_key_up (event : Event) (key_code : VirtualKeyCode) : Bool :=
  match get_key event with
  | some (key, s) => decide (key = key_code) && decide (s = ElementState.Released)
  | none => false

/-- `is_close_requested`: true if the event is a request to close the
window. -/
def is_close_requested : Event → Bool
  | .WindowEvent _ .CloseRequested => true
  | _ => false

/-- `get_input_axis_simple`: axis value from the `InputHandler`; `0.0`
when the name is `None` or the axis is unknown to the store. -/
def get_input_axis_simple (name : Option String) (input : InputHandler) : Rat :=
  (name.bind fun n => input.axis_value n).getD 0

/-- `get_action_simple`: action active status from the `InputHandler`;
`false` when the name is `None` or the action is unknown to the store. -/
def get_action_simple (name : Option String) (input : InputHandler) : Bool :=
  (name.bind fun n => input.action_is_down n).getD false

/-- `get_mouse_button`: if this event was for manipulating a mouse button,
returns the `MouseButton` and the new state. -/
def get_mouse_button : Event → Option (MouseButton × ElementState)
  | .WindowEvent _ (.MouseInput _ s button _) => some (button, s)
  | _ => none

/-- `is_mouse_button_down`: true if the event is a mouse button down event
for the provided `MouseButton`. -/
def is_mouse_button_down (event : Event) (button : MouseButton) : Bool :=
  match get_mouse_button event with
  | some (pressed_button, s) =>
      decide (pressed_button = button) && decide (s = ElementState.Pressed)
  | none => false

/-- C1: `get_key` returns `some (K, T)` exactly when the event is a
keyboard-input window event whose virtual key code is present and equal
to `K` with transition state `T`; every other event — including keyboard
events with an absent virtual key code — maps to `none`. -/
theorem get_key_characterisation (e : Event) (k : VirtualKeyCode) (t : ElementState) :
    get_key e = some (k, t) ↔
      ∃ wid did sc m syn,
        e = Event.WindowEvent wid
          (WindowEvent.KeyboardInput did ⟨sc, t, some k, m⟩ syn) := by
  cases e with
  | OtherEvent tag => simp [get_key]
  | WindowEvent wid we =>
    cases we with
    | CloseRequested => simp [get_key]
    | OtherWindowEvent tag => simp [get_key]
    | MouseInput did s b m => simp [get_key]
    | KeyboardInput did ki syn =>
      obtain ⟨sc, s, vk, m⟩ := ki
      cases vk with
      | none => simp [get_key]
      | some v =>
        simp only [get_key, Option.some.injEq, Prod.mk.injEq,
          Event.WindowEvent.injEq, WindowEvent.KeyboardInput.injEq,
          KeyboardInput.mk.injEq]
        aesop

/-- A concrete keyboard-input event used to instantiate theorems. -/
def keyEventW : Event :=
  Event.WindowEvent 0
    (WindowEvent.KeyboardInput 0 ⟨57, ElementState.Pressed, some ⟨32⟩, 0⟩ false)

/-- A concrete mouse-button event used to instantiate theorems. -/
def mouseEventW : Event :=
  Event.WindowEvent 0 (WindowEvent.MouseInput 0 ElementState.Pressed MouseButton.Left 0)

/-- A concrete store used to instantiate theorems: one bound axis
"Throttle" and one bound action "Jump". -/
def ihW : InputHandler where
  axis_value := fun s => if s = "Throttle" then some (3 / 2) else none
  action_is_down := fun s => if s = "Jump" then some true else none

/-- C2: `get_input_axis_simple` returns `0` for an absent name, `0` when
the store has no value for the name, and the store's value unchanged
otherwise. -/
theorem get_input_axis_simple_spec (input : InputHandler) (n : String) :
    (∀ i : InputHandler, get_input_axis_simple none i = 0) ∧
    (input.axis_value n = none → get_input_axis_simple (some n) input = 0) ∧
    (∀ v, input.axis_value n = some v → get_input_axis_simple (some n) input = v) := by
  refine ⟨fun i => rfl, fun h => ?_, fun v h => ?_⟩ <;>
    simp [get_input_axis_simple, h]

/-- Witness for C2 at the concrete store `ihW`: `none` and unbound names
give `0`, the bound name gives the stored value. -/
theorem get_input_axis_simple_spec_witness :
    get_input_axis_simple none ihW = 0 ∧
    get_input_axis_simple (some "X") ihW = 0 ∧
    get_input_axis_simple (some "Throttle") ihW = 3 / 2 :=
  ⟨(get_input_axis_simple_spec ihW "X").1 ihW,
   (get_input_axis_simple_spec ihW "X").2.1 rfl,
   (get_input_axis_simple_spec ihW "Throttle").2.2 (3 / 2) rfl⟩

/-- C3: `get_action_simple` returns `false` for an absent name, `false`
when the store has no value for the name, and the store's boolean
unchanged otherwise. -/
theorem get_action_simple_spec (input : InputHandler) (n : String) :
    (∀ i : InputHandler, get_action_simple none i = false) ∧
    (input.action_is_down n = none → get_action_simple (some n) input = false) ∧
    (∀ v, input.action_is_down n = some v → get_action_simple (some n) input = v) := by
  refine ⟨fun i => rfl, fun h => ?_, fun v h => ?_⟩ <;>
    simp [get_action_simple, h]

/-- Witness for C3 at the concrete store `ihW`: `none` and unbound names
give `false`, the bound name gives the stored boolean. -/
theorem get_action_simple_spec_witness :
    get_action_simple none ihW = false ∧
    get_action_simple (some "X") ihW = false ∧
    get_action_simple (some "Jump") ihW = true :=
  ⟨(get_action_simple_spec ihW "X").1 ihW,
   (get_action_simple_spec ihW "X").2.1 rfl,
   (get_action_simple_spec ihW "Jump").2.2 true rfl⟩

/-- C4: `is_close_requested` is true exactly on the close-request window
event, and in particular false on every keyboard-input and every
mouse-button event. -/
theorem is_close_requested_spec (e : Event) :
    (is_close_requested e = true ↔
      ∃ wid, e = Event.WindowEvent wid WindowEvent.CloseRequested) ∧
    (∀ wid did ki syn,
      e = Event.WindowEvent wid (WindowEvent.KeyboardInput did ki syn) →
        is_close_requested e = false) ∧
    (∀ wid did s b m,
      e = Event.WindowEvent wid (WindowEvent.MouseInput did s b m) →
        is_close_requested e = false) := by
  refine ⟨?_, ?_, ?_⟩
  · cases e with
    | OtherEvent tag => simp [is_close_requested]
    | WindowEvent wid we => cases we <;> simp [is_close_requested]
  · rintro wid did ki syn rfl
    rfl
  · rintro wid did s b m rfl
    rfl

/-- Witness for C4: a keyboard event and a mouse event are not close
requests. -/
theorem is_close_requested_spec_witness :
    is_close_requested keyEventW = false ∧ is_close_requested mouseEventW = false :=
  ⟨(is_close_requested_spec keyEventW).2.1 0 0
      ⟨57, ElementState.Pressed, some ⟨32⟩, 0⟩ false rfl,
   (is_close_requested_spec mouseEventW).2.2 0 0
      ElementState.Pressed MouseButton.Left 0 rfl⟩

/-- C5: `is_key_down e k` holds exactly when `get_key e = some (k, Pressed)`
and `is_key_up e k` exactly when `get_key e = some (k, Released)`. -/
theorem key_transition_spec (e : Event) (key_code : VirtualKeyCode) :
    (is_key_down e key_code = true ↔
      get_key e = some (key_code, ElementState.Pressed)) ∧
    (is_key_up e key_code = true ↔
      get_key e = some (key_code, ElementState.Released)) := by
  unfold is_key_down is_key_up
  cases h : get_key e with
  | none => simp
  | some kt =>
    obtain ⟨k, s⟩ := kt
    cases s <;> simp

/-- C6: `get_mouse_button` returns `some (B, T)` exactly when the event is
a mouse-button window event with button `B` and state `T`. -/
theorem get_mouse_button_characterisation (e : Event) (b : MouseButton) (t : ElementState) :
    get_mouse_button e = some (b, t) ↔
      ∃ wid did m, e = Event.WindowEvent wid (WindowEvent.MouseInput did t b m) := by
  cases e with
  | OtherEvent tag => simp [get_mouse_button]
  | WindowEvent wid we =>
    cases we with
    | CloseRequested => simp [get_mouse_button]
    | OtherWindowEvent tag => simp [get_mouse_button]
    | KeyboardInput did ki syn => simp [get_mouse_button]
    | MouseInput did s b0 m =>
      simp only [get_mouse_button, Option.some.injEq, Prod.mk.injEq,
        Event.WindowEvent.injEq, WindowEvent.MouseInput.injEq]
      aesop

/-- C7: `is_mouse_button_down e b` holds exactly when `get_mouse_button`
yields `some (b, Pressed)`; on a mouse-button event it is decided by the
transition state alone, and on every non-mouse-button event it is false. -/
theorem is_mouse_button_down_spec (e : Event) (b : MouseButton) :
    (is_mouse_button_down e b = true ↔
      get_mouse_button e = some (b, ElementState.Pressed)) ∧
    (∀ wid did t m,
      e = Event.WindowEvent wid (WindowEvent.MouseInput did t b m) →
        (is_mouse_button_down e b = true ↔ t = ElementState.Pressed)) ∧
    (get_mouse_button e = none → is_mouse_button_down e b = false) := by
  refine ⟨?_, ?_, ?_⟩
  · unfold is_mouse_button_down
    cases h : get_mouse_button e with
    | none => simp
    | some bt =>
      obtain ⟨b0, s⟩ := bt
      cases s <;> simp
  · rintro wid did t m rfl
    cases t <;> simp [is_mouse_button_down, get_mouse_button]
  · intro h
    simp [is_mouse_button_down, h]

/-- Witness for C7: on the concrete pressed left-button event the
predicate reduces to the transition test, and a non-mouse event gives
false. -/
theorem is_mouse_button_down_spec_witness :
    (is_mouse_button_down mouseEventW MouseButton.Left = true ↔
      ElementState.Pressed = ElementState.Pressed) ∧
    is_mouse_button_down (Event.OtherEvent 3) MouseButton.Left = false :=
  ⟨(is_mouse_button_down_spec mouseEventW MouseButton.Left).2.1 0 0
      ElementState.Pressed 0 rfl,
   (is_mouse_button_down_spec (Event.OtherEvent 3) MouseButton.Left).2.2 rfl⟩

/-- C8: every classifier and resolver is total: on any event shape it
yields a normal value, and on every non-matching or absent case it yields
the neutral default (`none`, `false`, `0`); no error is ever signalled
(totality of the Lean functions is by construction — every match has an
explicit default arm). -/
theorem totality_defaults (e : Event) (key_code : VirtualKeyCode) (b : MouseButton)
    (input : InputHandler) (n : String) :
    (get_key e = none ∨ ∃ kt, get_key e = some kt) ∧
    (is_key_down e key_code = true ∨ is_key_down e key_code = false) ∧
    (is_key_up e key_code = true ∨ is_key_up e key_code = false) ∧
    (is_close_requested e = true ∨ is_close_requested e = false) ∧
    (get_mouse_button e = none ∨ ∃ bt, get_mouse_button e = some bt) ∧
    (is_mouse_button_down e b = true ∨ is_mouse_button_down e b = false) ∧
    (∀ i : InputHandler, get_input_axis_simple none i = 0) ∧
    (∀ i : InputHandler, get_action_simple none i = false) ∧
    (input.axis_value n = none → get_input_axis_simple (some n) input = 0) ∧
    (input.action_is_down n = none → get_action_simple (some n) input = false) ∧
    (get_key e = none → is_key_down e key_code = false ∧ is_key_up e key_code = false) ∧
    (get_mouse_button e = none → is_mouse_button_down e b = false) := by
  refine ⟨?_, ?_, ?_, ?_, ?_, ?_, fun i => rfl, fun i => rfl, ?_, ?_, ?_, ?_⟩
  · cases h : get_key e with
    | none => exact Or.inl rfl
    | some kt => exact Or.inr ⟨kt, rfl⟩
  · cases h : is_key_down e key_code
    · exact Or.inr rfl
    · exact Or.inl rfl
  · cases h : is_key_up e key_code
    · exact Or.inr rfl
    · exact Or.inl rfl
  · cases h : is_close_requested e
    · exact Or.inr rfl
    · exact Or.inl rfl
  · cases h : get_mouse_button e with
    | none => exact Or.inl rfl
    | some bt => exact Or.inr ⟨bt, rfl⟩
  · cases h : is_mouse_button_down e b
    · exact Or.inr rfl
    · exact Or.inl rfl
  · intro h
    simp [get_input_axis_simple, h]
  · intro h
    simp [get_action_simple, h]
  · intro h
    exact ⟨by simp [is_key_down, h], by simp [is_key_up, h]⟩
  · intro h
    simp [is_mouse_button_down, h]

/-- Witness for C8: at a non-matching event and an unbound name every
function yields its neutral default. -/
theorem totality_defaults_witness :
    get_input_axis_simple (some "X") ihW = 0 ∧
    get_action_simple (some "X") ihW = false ∧
    (is_key_down (Event.OtherEvent 3) ⟨32⟩ = false ∧
      is_key_up (Event.OtherEvent 3) ⟨32⟩ = false) ∧
    is_mouse_button_down (Event.OtherEvent 3) MouseButton.Left = false := by
  obtain ⟨-, -, -, -, -, -, -, -, h1, h2, h3, h4⟩ :=
    totality_defaults (Event.OtherEvent 3) ⟨32⟩ MouseButton.Left ihW "X"
  exact ⟨h1 rfl, h2 rfl, h3 rfl, h4 rfl⟩

/-- C9: the three classifications are pairwise exclusive on a single
event, so no two of the derived predicates can hold at once, and
`is_key_down` and `is_key_up` are never both true. -/
theorem classification_exclusive (e : Event) (key_code : VirtualKeyCode) (b : MouseButton) :
    ((get_key e).isSome && (get_mouse_button e).isSome) = false ∧
    ((get_key e).isSome && is_close_requested e) = false ∧
    ((get_mouse_button e).isSome && is_close_requested e) = false ∧
    (is_key_down e key_code && is_key_up e key_code) = false ∧
    (is_key_down e key_code && is_mouse_button_down e b) = false ∧
    (is_key_up e key_code && is_mouse_button_down e b) = false := by
  cases e with
  | OtherEvent tag =>
    simp [get_key, get_mouse_button, is_close_requested, is_key_down,
      is_key_up, is_mouse_button_down]
  | WindowEvent wid we =>
    cases we with
    | CloseRequested =>
      simp [get_key, get_mouse_button, is_close_requested, is_key_down,
        is_key_up, is_mouse_button_down]
    | OtherWindowEvent tag =>
      simp [get_key, get_mouse_button, is_close_requested, is_key_down,
        is_key_up, is_mouse_button_down]
    | MouseInput did s b0 m =>
      simp [get_key, get_mouse_button, is_close_requested, is_key_down,
        is_key_up, is_mouse_button_down]
    | KeyboardInput did ki syn =>
      obtain ⟨sc, s, vk, m⟩ := ki
      cases vk with
      | none =>
        simp [get_key, get_mouse_button, is_close_requested, is_key_down,
          is_key_up, is_mouse_button_down]
      | some v =>
        cases s <;>
          simp [get_key, get_mouse_button, is_close_requested, is_key_down,
            is_key_up, is_mouse_button_down]

/-- C10: all functions are deterministic and stateless: the classifier
result depends only on the event value, and the resolver result depends
only on the name and the store's observable query functions — two stores
answering the two queries identically are interchangeable, and repeated
calls with the same inputs agree. -/
theorem stateless_deterministic (e : Event) (key_code : VirtualKeyCode) (b : MouseButton)
    (name : Option String) (i j : InputHandler)
    (hax : ∀ n, i.axis_value n = j.axis_value n)
    (hact : ∀ n, i.action_is_down n = j.action_is_down n) :
    get_key e = get_key e ∧
    is_key_down e key_code = is_key_down e key_code ∧
    is_key_up e key_code = is_key_up e key_code ∧
    is_close_requested e = is_close_requested e ∧
    get_mouse_button e = get_mouse_button e ∧
    is_mouse_button_down e b = is_mouse_button_down e b ∧
    get_input_axis_simple name i = get_input_axis_simple name j ∧
    get_action_simple name i = get_action_simple name j := by
  refine ⟨rfl, rfl, rfl, rfl, rfl, rfl, ?_, ?_⟩
  · cases name with
    | none => rfl
    | some n => simp [get_input_axis_simple, hax n]
  · cases name with
    | none => rfl
    | some n => simp [get_action_simple, hact n]

/-- Witness for C10: two syntactically distinct stores answering the two
queries identically resolve identically. -/
theorem stateless_deterministic_witness :
    get_input_axis_simple (some "Throttle") ihW =
      get_input_axis_simple (some "Throttle")
        ⟨fun s => if s = "Throttle" then some (3 / 2) else none,
         fun s => if s = "Jump" then some true else none⟩ ∧
    get_action_simple (some "Jump") ihW =
      get_action_simple (some "Jump")
        ⟨fun s => if s = "Throttle" then some (3 / 2) else none,
         fun s => if s = "Jump" then some true else none⟩ :=
  ⟨(stateless_deterministic keyEventW ⟨32⟩ MouseButton.Left (some "Throttle") ihW
      ⟨fun s => if s = "Throttle" then some (3 / 2) else none,
       fun s => if s = "Jump" then some true else none⟩
      (fun _ => rfl) (fun _ => rfl)).2.2.2.2.2.2.1,
   (stateless_deterministic keyEventW ⟨32⟩ MouseButton.Left (some "Jump") ihW
      ⟨fun s => if s = "Throttle" then some (3 / 2) else none,
       fun s => if s = "Jump" then some true else none⟩
      (fun _ => rfl) (fun _ => rfl)).2.2.2.2.2.2.2⟩

end AmethystInputUtil
